import Mathlib

/-!
Verification of the request-signing, shared-credential and session-bootstrap
core of the Beamable TypeScript SDK.

The definitions below are a shallow embedding of `src/core/BeamableCore.ts`
(server-mode revision: static token fields, `calculateSignature`, signed
requests), `src/core/BeamContext.ts` (`createDefault`, `_fetchPlayerInfo`,
`_resolveOnReady`) and `AuthModule.guestLogin` / `AuthModule.getCurrentAccount`
from `src/modules/Auth.ts`.

Modelling conventions:
* JavaScript `null`/`undefined` string-or-missing values are `Option String`;
  JS truthiness of such a value is `truthyStr` (present and non-empty).
* The static fields `BeamableCore.accessToken` / `BeamableCore.refreshToken`
  and `BeamableCore._globalConfig` are process-wide mutable state; they are
  embedded as an explicit `TokenState` / `GlobalState` threaded through the
  operations, while each constructed instance keeps only its `config` field,
  exactly as in the source.
* `fetch` is the external HTTP boundary: `request` is embedded as the
  `FetchCall` it dispatches (URL, headers, serialized body), and the bootstrap
  takes a deterministic `Transport` oracle standing for the network.
* `CryptoJS.MD5` / `CryptoJS.enc.Base64` (external library) are embedded as
  the standard MD5 digest over the UTF-8 bytes of the input string followed by
  standard Base64, which is what that library computes for string input.
* `JSON.stringify` (JS builtin) is embedded for JSON values with integer
  numbers; string escaping covers quotes and backslashes (the request bodies
  built by this SDK contain no control characters).
-/

namespace BeamableSdk

/-- JSON values, the shape of request/response bodies. -/
inductive Json where
  | null : Json
  | bool : Bool → Json
  | num : Int → Json
  | str : String → Json
  | arr : List Json → Json
  | obj : List (String × Json) → Json

/-- Escaping used by `JSON.stringify` for string content (quotes and backslashes). -/
def jsonEscape (s : String) : String :=
  s.foldl (fun acc c =>
    if c = '"' then acc ++ "\\\""
    else if c = '\\' then acc ++ "\\\\"
    else acc.push c) ""

mutual

/-- Embedding of the JS builtin `JSON.stringify` on `Json` values. -/
def jsonStringify : Json → String
  | Json.null => "null"
  | Json.bool b => if b then "true" else "false"
  | Json.num n => toString n
  | Json.str s => "\"" ++ jsonEscape s ++ "\""
  | Json.arr xs => "[" ++ jsonStringifyList xs ++ "]"
  | Json.obj kvs => "\x7b" ++ jsonStringifyObj kvs ++ "\x7d"

/-- Comma-separated serialization of array elements. -/
def jsonStringifyList : List Json → String
  | [] => ""
  | [x] => jsonStringify x
  | x :: y :: xs => jsonStringify x ++ "," ++ jsonStringifyList (y :: xs)

/-- Comma-separated serialization of object entries. -/
def jsonStringifyObj : List (String × Json) → String
  | [] => ""
  | [(k, v)] => "\"" ++ jsonEscape k ++ "\":" ++ jsonStringify v
  | (k, v) :: e :: xs =>
    "\"" ++ jsonEscape k ++ "\":" ++ jsonStringify v ++ "," ++ jsonStringifyObj (e :: xs)

end

/-- UTF-8 encoding of one character, as a list of byte values. -/
def utf8Bytes (c : Char) : List Nat :=
  let n := c.toNat
  if n < 128 then [n]
  else if n < 2048 then [192 + n / 64, 128 + n % 64]
  else if n < 65536 then [224 + n / 4096, 128 + (n / 64) % 64, 128 + n % 64]
  else [240 + n / 262144, 128 + (n / 4096) % 64, 128 + (n / 64) % 64, 128 + n % 64]

/-- UTF-8 encoding of a string, as a list of byte values. -/
def utf8Encode (s : String) : List Nat :=
  (s.toList.map utf8Bytes).flatten

/-- Truncation to a 32-bit word. -/
def mask32 (x : Nat) : Nat := x % 4294967296

/-- 32-bit left rotation. -/
def rotl32 (x n : Nat) : Nat :=
  mask32 ((x <<< n) ||| (x >>> (32 - n)))

/-- 32-bit bitwise complement. -/
def not32 (x : Nat) : Nat := x ^^^ 4294967295

/-- The 64 MD5 sine-derived round constants. -/
def md5K : List Nat :=
  [0xd76aa478, 0xe8c7b756, 0x242070db, 0xc1bdceee,
   0xf57c0faf, 0x4787c62a, 0xa8304613, 0xfd469501,
   0x698098d8, 0x8b44f7af, 0xffff5bb1, 0x895cd7be,
   0x6b901122, 0xfd987193, 0xa679438e, 0x49b40821,
   0xf61e2562, 0xc040b340, 0x265e5a51, 0xe9b6c7aa,
   0xd62f105d, 0x02441453, 0xd8a1e681, 0xe7d3fbc8,
   0x21e1cde6, 0xc33707d6, 0xf4d50d87, 0x455a14ed,
   0xa9e3e905, 0xfcefa3f8, 0x676f02d9, 0x8d2a4c8a,
   0xfffa3942, 0x8771f681, 0x6d9d6122, 0xfde5380c,
   0xa4beea44, 0x4bdecfa9, 0xf6bb4b60, 0xbebfbc70,
   0x289b7ec6, 0xeaa127fa, 0xd4ef3085, 0x04881d05,
   0xd9d4d039, 0xe6db99e5, 0x1fa27cf8, 0xc4ac5665,
   0xf4292244, 0x432aff97, 0xab9423a7, 0xfc93a039,
   0x655b59c3, 0x8f0ccc92, 0xffeff47d, 0x85845dd1,
   0x6fa87e4f, 0xfe2ce6e0, 0xa3014314, 0x4e0811a1,
   0xf7537e82, 0xbd3af235, 0x2ad7d2bb, 0xeb86d391]

/-- The 64 MD5 per-round left-rotation amounts. -/
def md5S : List Nat :=
  [7, 12, 17, 22, 7, 12, 17, 22, 7, 12, 17, 22, 7, 12, 17, 22,
   5, 9, 14, 20, 5, 9, 14, 20, 5, 9, 14, 20, 5, 9, 14, 20,
   4, 11, 16, 23, 4, 11, 16, 23, 4, 11, 16, 23, 4, 11, 16, 23,
   6, 10, 15, 21, 6, 10, 15, 21, 6, 10, 15, 21, 6, 10, 15, 21]

/-- The MD5 nonlinear round function for round `i`. -/
def md5F (i b c d : Nat) : Nat :=
  if i < 16 then (b &&& c) ||| (not32 b &&& d)
  else if i < 32 then (d &&& b) ||| (not32 d &&& c)
  else if i < 48 then b ^^^ c ^^^ d
  else c ^^^ (b ||| not32 d)

/-- The MD5 message-word index used in round `i`. -/
def md5MsgIndex (i : Nat) : Nat :=
  if i < 16 then i
  else if i < 32 then (5 * i + 1) % 16
  else if i < 48 then (3 * i + 5) % 16
  else (7 * i) % 16

/-- The four 32-bit MD5 chaining registers. -/
structure Md5State where
  a : Nat
  b : Nat
  c : Nat
  d : Nat

/-- The standard MD5 initialization vector. -/
def md5Init : Md5State :=
  ⟨1732584193, 4023233417, 2562383102, 271733878⟩

/-- Little-endian 32-bit word `j` of a 64-byte block. -/
def md5Word (block : List Nat) (j : Nat) : Nat :=
  block.getD (4 * j) 0 + 256 * block.getD (4 * j + 1) 0
    + 65536 * block.getD (4 * j + 2) 0 + 16777216 * block.getD (4 * j + 3) 0

/-- One MD5 round. -/
def md5Step (block : List Nat) (st : Md5State) (i : Nat) : Md5State :=
  let f := mask32 (md5F i st.b st.c st.d + st.a + md5K.getD i 0
    + md5Word block (md5MsgIndex i))
  ⟨st.d, mask32 (st.b + rotl32 f (md5S.getD i 0)), st.b, st.c⟩

/-- MD5 compression of one 64-byte block into the chaining state. -/
def md5Block (st : Md5State) (block : List Nat) : Md5State :=
  let r := (List.range 64).foldl (md5Step block) st
  ⟨mask32 (st.a + r.a), mask32 (st.b + r.b), mask32 (st.c + r.c), mask32 (st.d + r.d)⟩

/-- MD5 padding: a 1-bit, zeros to 56 mod 64 bytes, then the 64-bit bit length. -/
def md5Pad (msg : List Nat) : List Nat :=
  let len := msg.length
  let zeros := (120 - ((len + 1) % 64)) % 64
  msg ++ [128] ++ List.replicate zeros 0
    ++ (List.range 8).map (fun i => ((8 * len) >>> (8 * i)) % 256)

/-- Little-endian byte serialization of a 32-bit word. -/
def wordLE (x : Nat) : List Nat :=
  [x % 256, (x / 256) % 256, (x / 65536) % 256, (x / 16777216) % 256]

/-- The 16-byte MD5 digest of a byte sequence. -/
def md5Bytes (msg : List Nat) : List Nat :=
  let padded := md5Pad msg
  let blocks := (List.range (padded.length / 64)).map
    (fun i => (padded.drop (64 * i)).take 64)
  let st := blocks.foldl md5Block md5Init
  wordLE st.a ++ wordLE st.b ++ wordLE st.c ++ wordLE st.d

/-- The Base64 alphabet. -/
def base64Alphabet : List Char :=
  "ABCDEFGHIJKLMNOPQRSTUVWXYZabcdefghijklmnopqrstuvwxyz0123456789+/".toList

/-- Base64 digit for a 6-bit value. -/
def b64Char (i : Nat) : Char := base64Alphabet.getD i 'A'

/-- Standard Base64 encoding of a byte sequence, with `=` padding. -/
def base64Encode : List Nat → String
  | [] => ""
  | [x] => String.mk [b64Char (x / 4), b64Char ((x % 4) * 16)] ++ "=="
  | [x, y] =>
    String.mk [b64Char (x / 4), b64Char ((x % 4) * 16 + y / 16),
      b64Char ((y % 16) * 4)] ++ "="
  | x :: y :: z :: rest =>
    String.mk [b64Char (x / 4), b64Char ((x % 4) * 16 + y / 16),
      b64Char ((y % 16) * 4 + z / 64), b64Char (z % 64)] ++ base64Encode rest

/-- Embedding of `CryptoJS.enc.Base64.stringify(CryptoJS.MD5(s))`: Base64 of the
MD5 digest of the UTF-8 bytes of `s`. -/
def md5Base64 (s : String) : String :=
  base64Encode (md5Bytes (utf8Encode s))

/-- The `mode` configuration flag: `'client' | 'server'`. -/
inductive BeamMode where
  | client : BeamMode
  | server : BeamMode
deriving DecidableEq

/-- Embedding of the `BeamableConfig` interface (server-mode revision).
`none` on an optional field is the absent / `undefined` property. -/
structure BeamableConfig where
  apiUrl : String
  cid : String
  pid : String
  hash : Option String := none
  secret : Option String := none
  mode : Option BeamMode := none
deriving DecidableEq

/-- The static fields `BeamableCore.accessToken` / `BeamableCore.refreshToken`:
one process-wide credential slot shared by every instance. `none` is JS `null`. -/
structure TokenState where
  accessToken : Option String := none
  refreshToken : Option String := none
deriving DecidableEq

/-- The static field `BeamableCore._globalConfig` together with the shared
token slot: the whole process-wide mutable state of the core. -/
structure GlobalState where
  _globalConfig : Option BeamableConfig := none
  tokens : TokenState := {}
deriving DecidableEq

/-- An instance of the `BeamableCore` class: the only per-instance state is the
`config` field captured at construction. -/
structure BeamableCore where
  config : BeamableConfig
deriving DecidableEq

/-- JS truthiness of a `string | null | undefined` value: present and non-empty. -/
def truthyStr : Option String → Bool
  | some s => s != ""
  | none => false

/-- JS truthiness of a `boolean | undefined` value. -/
def truthyBool : Option Bool → Bool
  | some b => b
  | none => false

/-- JS template-literal interpolation of a `string | undefined` value
(an absent value interpolates as the text `undefined`). -/
def jsInterp : Option String → String
  | some s => s
  | none => "undefined"

/-- The exact message of the error thrown by the `globalConfig` getter. -/
def notConfiguredMessage : String :=
  "BeamableCore is not configured. Call configureBeamable(\x7b cid, pid, apiUrl \x7d) before using the SDK."

/-- Embedding of `BeamableCore.configure`: stores the configuration in the
static `_globalConfig` slot, with no validation of any kind. -/
def BeamableCore.configure (config : BeamableConfig) (g : GlobalState) : GlobalState :=
  { g with _globalConfig := some config }

/-- Embedding of the static `globalConfig` getter: throws when the global
configuration was never set. -/
def BeamableCore.globalConfig (g : GlobalState) : Except String BeamableConfig :=
  match g._globalConfig with
  | some c => Except.ok c
  | none => Except.error notConfiguredMessage

/-- Embedding of `new BeamableCore(config?)`: `this.config = config ||
BeamableCore.globalConfig` (the getter, and hence its error, is only reached
when no explicit config is passed; a passed config object is always truthy). -/
def BeamableCore.new (config : Option BeamableConfig) (g : GlobalState) : Except String BeamableCore :=
  match config with
  | some c => Except.ok ⟨c⟩
  | none =>
    match BeamableCore.globalConfig g with
    | Except.ok c => Except.ok ⟨c⟩
    | Except.error e => Except.error e

/-- Core of `setTokens` on the raw (possibly `undefined`) values: the access
slot is assigned unconditionally, the refresh slot only when the argument is
truthy (`if (refreshToken) BeamableCore.refreshToken = refreshToken`). -/
def setTokensRaw (tokens : TokenState) (accessToken refreshToken : Option String) : TokenState :=
  { accessToken := accessToken,
    refreshToken := if truthyStr refreshToken then refreshToken else tokens.refreshToken }

/-- Embedding of `BeamableCore.prototype.setTokens(accessToken, refreshToken?)`.
The instance parameter is unused because the method writes only the static
(process-wide) fields. -/
def BeamableCore.setTokens (_self : BeamableCore) (tokens : TokenState)
    (accessToken : String) (refreshToken : Option String) : TokenState :=
  setTokensRaw tokens (some accessToken) refreshToken

/-- Embedding of `BeamableCore.prototype.getTokens()`: reads the static fields. -/
def BeamableCore.getTokens (_self : BeamableCore) (tokens : TokenState) : TokenState :=
  { accessToken := tokens.accessToken, refreshToken := tokens.refreshToken }

/-- Embedding of `calculateSignature(uriPathAndQuery, body?, method?)`.
The TS parameter type of `body` is `object | null`, so a present body is an
always-truthy object and `if (body && method !== 'DELETE')` tests presence
and the method. An absent secret would interpolate as the text `undefined`
(call sites only reach this with a truthy secret). -/
def BeamableCore.calculateSignature (cfg : BeamableConfig) (uriPathAndQuery : String)
    (body : Option Json) (method : String) : String :=
  let version := "1"
  let dataToSign := jsInterp cfg.secret ++ cfg.pid ++ version ++ uriPathAndQuery
  let dataToSign2 :=
    match body with
    | some b => if method ≠ "DELETE" then dataToSign ++ jsonStringify b else dataToSign
    | none => dataToSign
  md5Base64 dataToSign2

/-- The `microservice` option: `boolean | string`. -/
inductive MicroserviceOpt where
  | boolOpt : Bool → MicroserviceOpt
  | strOpt : String → MicroserviceOpt
deriving DecidableEq

/-- JS truthiness of the `microservice` option. -/
def truthyMicroservice : Option MicroserviceOpt → Bool
  | some (MicroserviceOpt.boolOpt b) => b
  | some (MicroserviceOpt.strOpt s) => s != ""
  | none => false

/-- The options bag of `request`: `\x7b auth?, microservice?, gamertag? \x7d`. -/
structure RequestOpts where
  auth : Option Bool := none
  microservice : Option MicroserviceOpt := none
  gamertag : Option String := none
deriving DecidableEq

/-- The HTTP call handed to `fetch`: the URL, method, headers and serialized
body built by `request`. The `path` field additionally records the `path`
argument (the URL is derived from it exactly as in the source). -/
structure FetchCall where
  url : String
  method : String
  path : String
  headers : List (String × String)
  body : Option String
deriving DecidableEq

/-- First value bound to a header key (keys are never repeated by `request`). -/
def headerLookup (headers : List (String × String)) (key : String) : Option String :=
  (headers.find? (fun p => p.fst == key)).map (fun p => p.snd)

/-- Value of a header of the dispatched call. -/
def FetchCall.headerVal (f : FetchCall) (key : String) : Option String :=
  headerLookup f.headers key

/-- Embedding of `BeamableCore.prototype.request(method, path, data?, opts)` up
to the `fetch` boundary: the URL, headers and body of the dispatched call.
`data` has TS type `any` but every caller passes an object or `undefined`, so a
present body is truthy. -/
def BeamableCore.request (self : BeamableCore) (tokens : TokenState)
    (method path : String) (data : Option Json) (opts : RequestOpts) : FetchCall :=
  let cfg := self.config
  let url :=
    if truthyMicroservice opts.microservice then
      let hash := match cfg.hash with | some h => h | none => ""
      let msName := match opts.microservice with
        | some (MicroserviceOpt.strOpt s) => s
        | _ => "CoreService"
      let msSlug := "/basic/" ++ cfg.cid ++ "." ++ cfg.pid ++ "." ++ hash ++ "micro_" ++ msName
      cfg.apiUrl ++ msSlug ++ path
    else
      cfg.apiUrl ++ path
  let headers0 := [("Content-Type", "application/json"),
    ("X-BEAM-SCOPE", cfg.cid ++ "." ++ cfg.pid)]
  let headers1 :=
    if truthyBool opts.auth ∧ truthyStr tokens.accessToken ∧ cfg.mode ≠ some BeamMode.server then
      headers0 ++ [("Authorization", "Bearer " ++ jsInterp tokens.accessToken)]
    else headers0
  let headers2 :=
    if cfg.mode = some BeamMode.server ∧ truthyStr cfg.secret then
      headers1 ++ [("X-BEAM-SIGNATURE", BeamableCore.calculateSignature cfg path data method)]
    else headers1
  let headers3 :=
    if truthyStr opts.gamertag then
      headers2 ++ [("X-BEAM-GAMERTAG", jsInterp opts.gamertag)]
    else headers2
  let body :=
    if data.isSome ∧ method ≠ "GET" then data.map jsonStringify else none
  { url := url, method := method, path := path, headers := headers3, body := body }

/-- Embedding of `requestMicroservice`: forwards to `request` with
`microservice` forced to the supplied service name. -/
def BeamableCore.requestMicroservice (self : BeamableCore) (tokens : TokenState)
    (method msName path : String) (data : Option Json)
    (auth : Option Bool) (gamertag : Option String) : FetchCall :=
  self.request tokens method path data
    { auth := auth, microservice := some (MicroserviceOpt.strOpt msName), gamertag := gamertag }

/-- Mutable state of a `BeamContext`: the auto-populated `playerId` and whether
the one-shot `onReady` promise has been resolved. -/
structure ContextState where
  playerId : Option Int := none
  readyResolved : Bool := false
deriving DecidableEq

/-- The network boundary for the bootstrap: a deterministic oracle mapping each
dispatched call to the parsed JSON response (`ok`) or the rejection payload
(`error`), folding the response-status handling of `request`. -/
def Transport : Type := FetchCall → Except Json Json

/-- Property read `j.key` on a parsed JSON response. -/
def jsonField (j : Json) (key : String) : Option Json :=
  match j with
  | Json.obj kvs => (kvs.find? (fun p => p.fst == key)).map (fun p => p.snd)
  | _ => none

/-- Property read expecting a string (absent or non-string is `undefined`). -/
def jsonFieldStr (j : Json) (key : String) : Option String :=
  match jsonField j key with
  | some (Json.str s) => some s
  | _ => none

/-- Property read expecting a number (absent or non-numeric is `undefined`). -/
def jsonFieldInt (j : Json) (key : String) : Option Int :=
  match jsonField j key with
  | some (Json.num n) => some n
  | _ => none

/-- The call dispatched by `AuthModule.getCurrentAccount()` (no gamertag):
`GET /basic/accounts/me` with `\x7b auth: true \x7d`. -/
def AuthModule.getCurrentAccountCall (core : BeamableCore) (tokens : TokenState) : FetchCall :=
  core.request tokens ("GET") ("/basic/accounts/me") none { auth := some true }

/-- Embedding of `BeamContext._fetchPlayerInfo`: fetch the current account and
store `account.id` as `playerId`; a rejected fetch is caught and only logged
(`playerId` is left as it was). Returns the new context state and the calls
issued. -/
def BeamContext._fetchPlayerInfo (core : BeamableCore) (tokens : TokenState)
    (transport : Transport) (ctx : ContextState) : ContextState × List FetchCall :=
  let call := AuthModule.getCurrentAccountCall core tokens
  match transport call with
  | Except.ok account => ({ ctx with playerId := jsonFieldInt account ("id") }, [call])
  | Except.error _ => (ctx, [call])

/-- Embedding of `BeamContext._resolveOnReady`: fetch player info, then resolve
the one-shot readiness promise (resolving an already-resolved promise is a
no-op, so the flag is simply set). -/
def BeamContext._resolveOnReady (core : BeamableCore) (tokens : TokenState)
    (transport : Transport) (ctx : ContextState) : ContextState × List FetchCall :=
  let r := BeamContext._fetchPlayerInfo core tokens transport ctx
  ({ r.fst with readyResolved := true }, r.snd)

/-- The call dispatched by `AuthModule.guestLogin()`:
`POST /basic/auth/token` with body `\x7b grant_type: 'guest' \x7d` and no options. -/
def AuthModule.guestLoginCall (core : BeamableCore) (tokens : TokenState) : FetchCall :=
  core.request tokens ("POST") ("/basic/auth/token")
    (some (Json.obj [("grant_type", Json.str ("guest"))])) {}

/-- Embedding of `AuthModule.guestLogin()`: request a guest token pair, store it
via `setTokens` (on the raw response fields, which may be absent), then start
`this.context?._resolveOnReady()`. That call is not awaited in the source; with
a deterministic transport the set of issued calls and the resulting observable
state do not depend on how the two continuations interleave, so it is modelled
as running to completion here. Returns the new token and context state and the
calls issued, or the rejection when the login request itself fails. -/
def AuthModule.guestLogin (core : BeamableCore) (tokens : TokenState)
    (transport : Transport) (ctx : ContextState) :
    Except Json (TokenState × ContextState × List FetchCall) :=
  let call := AuthModule.guestLoginCall core tokens
  match transport call with
  | Except.error e => Except.error e
  | Except.ok response =>
    let tokens1 := setTokensRaw tokens (jsonFieldStr response ("access_token"))
      (jsonFieldStr response ("refresh_token"))
    let hook := BeamContext._resolveOnReady core tokens1 transport ctx
    Except.ok (tokens1, hook.fst, call :: hook.snd)

/-- Failure of the singleton bootstrap: the constructor threw (`notConfigured`)
or an awaited request rejected. -/
inductive BootError where
  | notConfigured : String → BootError
  | requestFailed : Json → BootError

/-- Observable outcome of `BeamContext.createDefault()`: the constructed core,
the shared token slot, the context state, and the trace of dispatched calls in
order of issue. -/
structure BootResult where
  core : BeamableCore
  tokens : TokenState
  ctx : ContextState
  trace : List FetchCall

/-- Embedding of `BeamContext.createDefault()`, the memoized singleton
bootstrap: construct a core from the global config; in server mode resolve
readiness immediately; otherwise fetch player info directly when a token is
already present, or guest-login first (whose completion hook itself fetches
player info) and then fetch player info again, resolving readiness at the end. -/
def BeamContext.createDefault (g : GlobalState) (transport : Transport) :
    Except BootError BootResult :=
  match BeamableCore.new none g with
  | Except.error msg => Except.error (BootError.notConfigured msg)
  | Except.ok core =>
    let ctx0 : ContextState := {}
    if core.config.mode = some BeamMode.server then
      Except.ok ⟨core, g.tokens, { ctx0 with readyResolved := true }, []⟩
    else if truthyStr (core.getTokens g.tokens).accessToken then
      let r := BeamContext._fetchPlayerInfo core g.tokens transport ctx0
      Except.ok ⟨core, g.tokens, { r.fst with readyResolved := true }, r.snd⟩
    else
      match AuthModule.guestLogin core g.tokens transport ctx0 with
      | Except.error e => Except.error (BootError.requestFailed e)
      | Except.ok (tokens1, ctx1, calls1) =>
        let r := BeamContext._fetchPlayerInfo core tokens1 transport ctx1
        Except.ok ⟨core, tokens1, { r.fst with readyResolved := true }, calls1 ++ r.snd⟩

/-- Number of calls in a trace that target a given path. -/
def countPath (trace : List FetchCall) (p : String) : Nat :=
  (trace.filter (fun c => c.path == p)).length

/-- Trace of the bootstrap (empty when the bootstrap rejected). -/
def bootTrace (g : GlobalState) (t : Transport) : List FetchCall :=
  match BeamContext.createDefault g t with
  | Except.ok r => r.trace
  | Except.error _ => []

/-- Signature formula exactly as the specification words it:
base64(MD5(secret ‖ projectId ‖ "1" ‖ pathAndQuery ‖ serializedBody)), the
serialized body omitted entirely (not even an empty serialization marker
beyond the empty string) when the body is absent or the method is DELETE. -/
def specSignature (secret pid pathAndQuery : String) (body : Option Json) (method : String) : String :=
  let serializedBody :=
    match body with
    | some b => if method = "DELETE" then "" else jsonStringify b
    | none => ""
  md5Base64 (secret ++ pid ++ "1" ++ pathAndQuery ++ serializedBody)

/-! ### Concrete fixtures used by counterexamples and witnesses -/

/-- A client-mode configuration. -/
def cfgClient : BeamableConfig :=
  { apiUrl := ("https://api.example.com"), cid := ("cid1"), pid := ("pid1") }

/-- A server-mode configuration with a non-empty secret. -/
def cfgServer : BeamableConfig :=
  { apiUrl := ("https://api.example.com"), cid := ("cid1"), pid := ("pid1"),
    secret := some ("sec"), mode := some BeamMode.server }

/-- A server-mode configuration whose secret is missing. -/
def cfgNoSecret : BeamableConfig :=
  { apiUrl := ("https://api.example.com"), cid := ("cid1"), pid := ("pid1"),
    mode := some BeamMode.server }

/-- Global state configured for client mode, no tokens yet. -/
def gClient : GlobalState := { _globalConfig := some cfgClient }

/-- Global state configured for server mode (secret present), no tokens. -/
def gServer : GlobalState := { _globalConfig := some cfgServer }

/-- A token slot already holding an access and a refresh token. -/
def tokensBoth : TokenState :=
  { accessToken := some ("tokA"), refreshToken := some ("tokR") }

/-- A parsed guest-login response carrying a token pair. -/
def guestResponse : Json :=
  Json.obj [("access_token", Json.str ("tokA")), ("refresh_token", Json.str ("tokR"))]

/-- A transport that answers the anonymous-session endpoint with a token pair
and rejects every other path (in particular the identity fetch). -/
def transportLoginOnly : Transport := fun call =>
  if call.path == "/basic/auth/token" then Except.ok guestResponse
  else Except.error (Json.obj [("status", Json.num 404)])

/-! ### Helper lemmas -/

/-- Looking up the key bound by the head of the header list. -/
theorem headerLookup_cons_self (key v : String) (rest : List (String × String)) :
    headerLookup ((key, v) :: rest) key = some v := by
  simp [headerLookup, List.find?]

/-- Looking up a key that the head of the header list does not bind. -/
theorem headerLookup_cons_ne (k key v : String) (rest : List (String × String))
    (h : (k == key) = false) :
    headerLookup ((k, v) :: rest) key = headerLookup rest key := by
  simp [headerLookup, List.find?, h]

/-- Looking up any key in an empty header list. -/
theorem headerLookup_nil (key : String) : headerLookup [] key = none := rfl

/-- The signature computed by `calculateSignature` coincides with the
specification's formula whenever the secret is configured. -/
theorem calculateSignature_eq_spec (cfg : BeamableConfig) (path : String)
    (data : Option Json) (method : String) (s : String) (hsec : cfg.secret = some s) :
    BeamableCore.calculateSignature cfg path data method
      = specSignature s cfg.pid path data method := by
  unfold BeamableCore.calculateSignature specSignature jsInterp
  rw [hsec]
  cases data with
  | none => simp
  | some b =>
    by_cases h : method = "DELETE"
    · simp [h]
    · simp [h]

/-! ### Claims -/

/-- C5: for every path and every present body, the server signature of a DELETE
request with that body equals the signature of the same DELETE request with no
body — the body is excluded from the signed material. -/
theorem delete_signature_excludes_body (cfg : BeamableConfig) (path : String) (b : Json) :
    BeamableCore.calculateSignature cfg path (some b) ("DELETE")
      = BeamableCore.calculateSignature cfg path none ("DELETE") := rfl

/-- C4: for any two independently constructed core instances, `setTokens` on
one is observable through `getTokens` on the other, and both observe the same
state: the credential slot is a single process-wide cell. -/
theorem shared_token_state_across_instances (core1 core2 : BeamableCore)
    (st : TokenState) (a : String) (r : Option String) :
    (core2.getTokens (core1.setTokens st a r)).accessToken = some a
    ∧ core2.getTokens (core1.setTokens st a r) = core1.getTokens (core1.setTokens st a r) :=
  ⟨rfl, rfl⟩

/-- C9: a `setTokens` call that omits the refresh argument updates the shared
access token to the given value and leaves the shared refresh token unchanged. -/
theorem setTokens_omitted_refresh_frame (core : BeamableCore) (st : TokenState) (a : String) :
    core.setTokens st a none = { accessToken := some a, refreshToken := st.refreshToken } := rfl

/-- C1: every request issued in server mode with a configured (non-empty)
secret carries the signature header, whose value is exactly
base64(MD5(secret ‖ projectId ‖ "1" ‖ pathAndQuery ‖ serializedBody)) with the
body omitted entirely when absent or when the method is DELETE; the value
depends only on those inputs (the token state and option bag are quantified
arbitrarily), so equal inputs always yield the same signature string. -/
theorem server_signature_matches_spec_formula (cfg : BeamableConfig)
    (tokens : TokenState) (opts : RequestOpts) (method path : String)
    (data : Option Json) (s : String)
    (hmode : cfg.mode = some BeamMode.server) (hsec : cfg.secret = some s) (hne : s ≠ "") :
    (BeamableCore.request ⟨cfg⟩ tokens method path data opts).headerVal ("X-BEAM-SIGNATURE")
      = some (specSignature s cfg.pid path data method) := by
  have hA : ¬(truthyBool opts.auth = true ∧ truthyStr tokens.accessToken = true
      ∧ cfg.mode ≠ some BeamMode.server) := fun h => h.2.2 hmode
  have hS : cfg.mode = some BeamMode.server ∧ truthyStr cfg.secret = true :=
    ⟨hmode, by simp [truthyStr, hsec, hne]⟩
  simp only [BeamableCore.request, FetchCall.headerVal]
  rw [if_neg hA, if_pos hS]
  by_cases hg : truthyStr opts.gamertag = true
  · rw [if_pos hg]
    simp only [List.cons_append, List.nil_append]
    rw [headerLookup_cons_ne _ _ _ _ (by decide), headerLookup_cons_ne _ _ _ _ (by decide),
      headerLookup_cons_self, calculateSignature_eq_spec cfg path data method s hsec]
  · rw [if_neg hg]
    simp only [List.cons_append, List.nil_append]
    rw [headerLookup_cons_ne _ _ _ _ (by decide), headerLookup_cons_ne _ _ _ _ (by decide),
      headerLookup_cons_self, calculateSignature_eq_spec cfg path data method s hsec]

/-- C1 witness: the theorem instantiated at a concrete server-mode request. -/
theorem server_signature_matches_spec_formula_witness :
    (BeamableCore.request ⟨cfgServer⟩ tokensBoth ("POST") ("/object/stats/1")
        (some (Json.obj [("a", Json.num 1)])) { auth := some true }).headerVal ("X-BEAM-SIGNATURE")
      = some (specSignature ("sec") cfgServer.pid ("/object/stats/1")
          (some (Json.obj [("a", Json.num 1)])) ("POST")) :=
  server_signature_matches_spec_formula cfgServer tokensBoth { auth := some true }
    ("POST") ("/object/stats/1") (some (Json.obj [("a", Json.num 1)])) ("sec")
    rfl rfl (by decide)

/-- C2 counterexample: a server-mode request whose configuration has no secret
carries no signature header at all (and a set-but-empty impersonation string
yields no impersonation header), refuting the claim that every server-mode
request is signed. -/
theorem server_mode_without_secret_headers_cex :
    (BeamableCore.request ⟨cfgNoSecret⟩ tokensBoth ("POST") ("/object/stats/1")
        (some (Json.obj [])) { auth := some true, gamertag := some ("") }).headerVal
        ("X-BEAM-SIGNATURE") = none
    ∧ (BeamableCore.request ⟨cfgNoSecret⟩ tokensBoth ("POST") ("/object/stats/1")
        (some (Json.obj [])) { auth := some true, gamertag := some ("") }).headerVal
        ("X-BEAM-GAMERTAG") = none := by
  exact ⟨by decide, by decide⟩

/-- C2 (amended): in server mode the bearer Authorization header is never
attached, even when `auth` is requested and an access token is present in the
shared state; the signature header is attached whenever the secret is
configured and non-empty; and a non-empty `gamertag` option puts exactly that
identity string in the impersonation header. -/
theorem server_mode_header_contract (cfg : BeamableConfig) (tokens : TokenState)
    (opts : RequestOpts) (method path : String) (data : Option Json)
    (hmode : cfg.mode = some BeamMode.server) :
    (BeamableCore.request ⟨cfg⟩ tokens method path data opts).headerVal ("Authorization") = none
    ∧ (∀ s, cfg.secret = some s → s ≠ "" →
        (BeamableCore.request ⟨cfg⟩ tokens method path data opts).headerVal ("X-BEAM-SIGNATURE")
          = some (BeamableCore.calculateSignature cfg path data method))
    ∧ (∀ gt, opts.gamertag = some gt → gt ≠ "" →
        (BeamableCore.request ⟨cfg⟩ tokens method path data opts).headerVal ("X-BEAM-GAMERTAG")
          = some gt) := by
  have hA : ¬(truthyBool opts.auth = true ∧ truthyStr tokens.accessToken = true
      ∧ cfg.mode ≠ some BeamMode.server) := fun h => h.2.2 hmode
  simp only [BeamableCore.request, FetchCall.headerVal]
  rw [if_neg hA]
  refine ⟨?_, ?_, ?_⟩
  · by_cases hS : cfg.mode = some BeamMode.server ∧ truthyStr cfg.secret = true
    · rw [if_pos hS]
      by_cases hg : truthyStr opts.gamertag = true
      · rw [if_pos hg]
        simp only [List.cons_append, List.nil_append]
        rw [headerLookup_cons_ne _ _ _ _ (by decide), headerLookup_cons_ne _ _ _ _ (by decide),
          headerLookup_cons_ne _ _ _ _ (by decide), headerLookup_cons_ne _ _ _ _ (by decide),
          headerLookup_nil]
      · rw [if_neg hg]
        simp only [List.cons_append, List.nil_append]
        rw [headerLookup_cons_ne _ _ _ _ (by decide), headerLookup_cons_ne _ _ _ _ (by decide),
          headerLookup_cons_ne _ _ _ _ (by decide), headerLookup_nil]
    · rw [if_neg hS]
      by_cases hg : truthyStr opts.gamertag = true
      · rw [if_pos hg]
        simp only [List.cons_append, List.nil_append]
        rw [headerLookup_cons_ne _ _ _ _ (by decide), headerLookup_cons_ne _ _ _ _ (by decide),
          headerLookup_cons_ne _ _ _ _ (by decide), headerLookup_nil]
      · rw [if_neg hg]
        rw [headerLookup_cons_ne _ _ _ _ (by decide), headerLookup_cons_ne _ _ _ _ (by decide),
          headerLookup_nil]
  · intro s hsec hne
    have hS : cfg.mode = some BeamMode.server ∧ truthyStr cfg.secret = true :=
      ⟨hmode, by simp [truthyStr, hsec, hne]⟩
    rw [if_pos hS]
    by_cases hg : truthyStr opts.gamertag = true
    · rw [if_pos hg]
      simp only [List.cons_append, List.nil_append]
      rw [headerLookup_cons_ne _ _ _ _ (by decide), headerLookup_cons_ne _ _ _ _ (by decide),
        headerLookup_cons_self]
    · rw [if_neg hg]
      simp only [List.cons_append, List.nil_append]
      rw [headerLookup_cons_ne _ _ _ _ (by decide), headerLookup_cons_ne _ _ _ _ (by decide),
        headerLookup_cons_self]
  · intro gt hgt hne
    have hg : truthyStr opts.gamertag = true := by simp [truthyStr, hgt, hne]
    rw [if_pos hg, hgt]
    by_cases hS : cfg.mode = some BeamMode.server ∧ truthyStr cfg.secret = true
    · rw [if_pos hS]
      simp only [List.cons_append, List.nil_append]
      rw [headerLookup_cons_ne _ _ _ _ (by decide), headerLookup_cons_ne _ _ _ _ (by decide),
        headerLookup_cons_ne _ _ _ _ (by decide), headerLookup_cons_self]
      rfl
    · rw [if_neg hS]
      simp only [List.cons_append, List.nil_append]
      rw [headerLookup_cons_ne _ _ _ _ (by decide), headerLookup_cons_ne _ _ _ _ (by decide),
        headerLookup_cons_self]
      rfl

/-- C2 witness: the amended contract instantiated at a concrete server-mode
request impersonating gamertag 42. -/
theorem server_mode_header_contract_witness :
    (BeamableCore.request ⟨cfgServer⟩ tokensBoth ("POST") ("/p") none
        { auth := some true, gamertag := some ("42") }).headerVal ("Authorization") = none
    ∧ (BeamableCore.request ⟨cfgServer⟩ tokensBoth ("POST") ("/p") none
        { auth := some true, gamertag := some ("42") }).headerVal ("X-BEAM-SIGNATURE")
        = some (BeamableCore.calculateSignature cfgServer ("/p") none ("POST"))
    ∧ (BeamableCore.request ⟨cfgServer⟩ tokensBoth ("POST") ("/p") none
        { auth := some true, gamertag := some ("42") }).headerVal ("X-BEAM-GAMERTAG")
        = some ("42") := by
  have h := server_mode_header_contract cfgServer tokensBoth
    { auth := some true, gamertag := some ("42") } ("POST") ("/p") none rfl
  exact ⟨h.1, h.2.1 ("sec") rfl (by decide), h.2.2 ("42") rfl (by decide)⟩

/-- C8 counterexample: configuring server mode with a missing secret raises no
error — the configuration is stored as-is, session creation succeeds, and a
request is dispatched (unsigned) rather than any error being raised first. -/
theorem server_mode_missing_secret_no_error_cex :
    (BeamableCore.configure cfgNoSecret {})._globalConfig = some cfgNoSecret
    ∧ BeamableCore.new none (BeamableCore.configure cfgNoSecret {}) = Except.ok ⟨cfgNoSecret⟩
    ∧ (BeamableCore.request ⟨cfgNoSecret⟩ {} ("POST") ("/object/stats/1")
        (some (Json.obj [])) {}).headerVal ("X-BEAM-SIGNATURE") = none := by
  exact ⟨rfl, rfl, by decide⟩

/-- C8 (amended): when the mode is server and the secret is empty or missing,
no error is raised at configuration or session-creation time — `configure`
stores the config unvalidated, construction succeeds — and `request` silently
skips the signature header and dispatches the call unsigned (signing itself
never fails). -/
theorem server_mode_missing_secret_silent (cfg : BeamableConfig) (g : GlobalState)
    (tokens : TokenState) (method path : String) (data : Option Json) (opts : RequestOpts)
    (hmode : cfg.mode = some BeamMode.server) (hsec : truthyStr cfg.secret = false) :
    BeamableCore.new none (BeamableCore.configure cfg g) = Except.ok ⟨cfg⟩
    ∧ (BeamableCore.request ⟨cfg⟩ tokens method path data opts).headerVal
        ("X-BEAM-SIGNATURE") = none := by
  refine ⟨rfl, ?_⟩
  have hA : ¬(truthyBool opts.auth = true ∧ truthyStr tokens.accessToken = true
      ∧ cfg.mode ≠ some BeamMode.server) := fun h => h.2.2 hmode
  have hS : ¬(cfg.mode = some BeamMode.server ∧ truthyStr cfg.secret = true) := by
    intro h
    rw [hsec] at h
    exact Bool.false_ne_true h.2
  simp only [BeamableCore.request, FetchCall.headerVal]
  rw [if_neg hA, if_neg hS]
  by_cases hg : truthyStr opts.gamertag = true
  · rw [if_pos hg]
    simp only [List.cons_append, List.nil_append]
    rw [headerLookup_cons_ne _ _ _ _ (by decide), headerLookup_cons_ne _ _ _ _ (by decide),
      headerLookup_cons_ne _ _ _ _ (by decide), headerLookup_nil]
  · rw [if_neg hg]
    rw [headerLookup_cons_ne _ _ _ _ (by decide), headerLookup_cons_ne _ _ _ _ (by decide),
      headerLookup_nil]

/-- C8 witness: the amended statement at the concrete secretless server config. -/
theorem server_mode_missing_secret_silent_witness :
    BeamableCore.new none (BeamableCore.configure cfgNoSecret {}) = Except.ok ⟨cfgNoSecret⟩
    ∧ (BeamableCore.request ⟨cfgNoSecret⟩ tokensBoth ("POST") ("/p")
        (some (Json.obj [])) { auth := some true }).headerVal ("X-BEAM-SIGNATURE") = none :=
  server_mode_missing_secret_silent cfgNoSecret {} tokensBoth ("POST") ("/p")
    (some (Json.obj [])) { auth := some true } rfl (by decide)

/-- C6: in server mode the singleton bootstrap resolves readiness and returns
without dispatching any HTTP call: the trace is empty, so in particular there
are zero calls to the anonymous-session endpoint and zero calls to the
identity-fetch endpoint. -/
theorem server_bootstrap_no_http_calls (g : GlobalState) (cfg : BeamableConfig) (t : Transport)
    (hcfg : g._globalConfig = some cfg) (hmode : cfg.mode = some BeamMode.server) :
    BeamContext.createDefault g t
      = Except.ok ⟨⟨cfg⟩, g.tokens, { playerId := none, readyResolved := true }, []⟩
    ∧ countPath (bootTrace g t) ("/basic/auth/token") = 0
    ∧ countPath (bootTrace g t) ("/basic/accounts/me") = 0 := by
  have h : BeamContext.createDefault g t
      = Except.ok ⟨⟨cfg⟩, g.tokens, { playerId := none, readyResolved := true }, []⟩ := by
    simp only [BeamContext.createDefault, BeamableCore.new, BeamableCore.globalConfig, hcfg]
    rw [if_pos hmode]
  exact ⟨h, by simp [bootTrace, h, countPath], by simp [bootTrace, h, countPath]⟩

/-- C6 witness: the theorem at the concrete server-mode global state, against a
transport that would answer calls if any were made. -/
theorem server_bootstrap_no_http_calls_witness :
    BeamContext.createDefault gServer transportLoginOnly
      = Except.ok ⟨⟨cfgServer⟩, gServer.tokens, { playerId := none, readyResolved := true }, []⟩
    ∧ countPath (bootTrace gServer transportLoginOnly) ("/basic/auth/token") = 0
    ∧ countPath (bootTrace gServer transportLoginOnly) ("/basic/accounts/me") = 0 :=
  server_bootstrap_no_http_calls gServer cfgServer transportLoginOnly rfl rfl

/-- C7: constructing a core without an explicit config before global
configuration fails with exactly the NotConfigured error, and after any
`configure` call the same construction succeeds (yielding a core holding the
configured config). -/
theorem not_configured_error_before_configure (g : GlobalState)
    (h : g._globalConfig = none) :
    BeamableCore.new none g = Except.error notConfiguredMessage
    ∧ ∀ (cfg : BeamableConfig) (g' : GlobalState),
        BeamableCore.new none (BeamableCore.configure cfg g') = Except.ok ⟨cfg⟩ := by
  refine ⟨?_, fun cfg g' => rfl⟩
  simp [BeamableCore.new, BeamableCore.globalConfig, h]

/-- C7 witness: a fresh (unconfigured) state errors; the same state after
`configure` constructs successfully. -/
theorem not_configured_error_before_configure_witness :
    BeamableCore.new none {} = Except.error notConfiguredMessage
    ∧ BeamableCore.new none (BeamableCore.configure cfgClient {}) = Except.ok ⟨cfgClient⟩ :=
  ⟨(not_configured_error_before_configure {} rfl).1,
    (not_configured_error_before_configure {} rfl).2 cfgClient {}⟩

/-- C3 counterexample: with no pre-existing token, the client-mode bootstrap
against a transport that grants the guest login calls the anonymous-session
endpoint once but the identity-fetch endpoint twice — once from the completion
hook fired by `guestLogin` and once more directly by `createDefault` — refuting
"identity-fetch exactly once". -/
theorem client_bootstrap_identity_fetch_twice_cex :
    countPath (bootTrace gClient transportLoginOnly) ("/basic/auth/token") = 1
    ∧ countPath (bootTrace gClient transportLoginOnly) ("/basic/accounts/me") = 2 := by
  exact ⟨by decide, by decide⟩

/-- C3 (amended): in client mode with no pre-existing access token, when the
anonymous-session call succeeds the bootstrap dispatches exactly the sequence
anonymous-session, identity-fetch, identity-fetch (the guest-login completion
hook performs the first identity fetch and `createDefault` a second), then
resolves readiness; and when the identity fetch fails the bootstrap still
resolves readiness with the stored `playerId` remaining null. -/
theorem client_bootstrap_call_sequence (g : GlobalState) (cfg : BeamableConfig)
    (t : Transport) (resp : Json)
    (hcfg : g._globalConfig = some cfg)
    (hmode : cfg.mode ≠ some BeamMode.server)
    (htok : truthyStr g.tokens.accessToken = false)
    (hlogin : t (AuthModule.guestLoginCall ⟨cfg⟩ g.tokens) = Except.ok resp) :
    ∃ r, BeamContext.createDefault g t = Except.ok r
      ∧ r.trace.map FetchCall.path
          = [("/basic/auth/token"), ("/basic/accounts/me"), ("/basic/accounts/me")]
      ∧ r.ctx.readyResolved = true
      ∧ ((t (AuthModule.getCurrentAccountCall ⟨cfg⟩ r.tokens)).isOk = false →
          r.ctx.playerId = none) := by
  have hunfold : BeamContext.createDefault g t =
      match AuthModule.guestLogin ⟨cfg⟩ g.tokens t {} with
      | Except.error e => Except.error (BootError.requestFailed e)
      | Except.ok (tokens1, ctx1, calls1) =>
        let r := BeamContext._fetchPlayerInfo ⟨cfg⟩ tokens1 t ctx1
        Except.ok ⟨⟨cfg⟩, tokens1, { r.fst with readyResolved := true }, calls1 ++ r.snd⟩ := by
    simp only [BeamContext.createDefault, BeamableCore.new, BeamableCore.globalConfig, hcfg,
      BeamableCore.getTokens, htok, if_neg hmode]
    simp
  set tokens1 := setTokensRaw g.tokens (jsonFieldStr resp ("access_token"))
    (jsonFieldStr resp ("refresh_token")) with htokens1
  have hglogin : AuthModule.guestLogin ⟨cfg⟩ g.tokens t {} =
      Except.ok (tokens1,
        ((BeamContext._resolveOnReady ⟨cfg⟩ tokens1 t {}).fst),
        AuthModule.guestLoginCall ⟨cfg⟩ g.tokens :: (BeamContext._resolveOnReady ⟨cfg⟩ tokens1 t {}).snd) := by
    simp only [AuthModule.guestLogin, hlogin]
  rw [hglogin] at hunfold
  simp only [BeamContext._resolveOnReady, BeamContext._fetchPlayerInfo] at hunfold
  cases hme : t (AuthModule.getCurrentAccountCall ⟨cfg⟩ tokens1) with
  | ok account =>
    rw [hme] at hunfold
    simp only at hunfold
    refine ⟨_, hunfold, ?_, rfl, ?_⟩
    · simp [AuthModule.guestLoginCall, AuthModule.getCurrentAccountCall, BeamableCore.request]
    · intro habs
      rw [hme] at habs
      exact absurd habs (by simp [Except.isOk, Except.toBool])
  | error e =>
    rw [hme] at hunfold
    simp only at hunfold
    refine ⟨_, hunfold, ?_, rfl, fun _ => rfl⟩
    simp [AuthModule.guestLoginCall, AuthModule.getCurrentAccountCall, BeamableCore.request]

/-- C3 witness: the amended statement at the concrete client state and the
transport that grants the login and rejects the identity fetch. -/
theorem client_bootstrap_call_sequence_witness :
    ∃ r, BeamContext.createDefault gClient transportLoginOnly = Except.ok r
      ∧ r.trace.map FetchCall.path
          = [("/basic/auth/token"), ("/basic/accounts/me"), ("/basic/accounts/me")]
      ∧ r.ctx.readyResolved = true
      ∧ ((transportLoginOnly (AuthModule.getCurrentAccountCall ⟨cfgClient⟩ r.tokens)).isOk = false →
          r.ctx.playerId = none) :=
  client_bootstrap_call_sequence gClient cfgClient transportLoginOnly guestResponse
    rfl (by decide) rfl rfl

/-- A sequence of `setTokens` calls (access value, optional refresh value)
applied in order to the shared slot. -/
def applySetTokens (core : BeamableCore) (calls : List (String × Option String))
    (st : TokenState) : TokenState :=
  calls.foldl (fun acc c => core.setTokens acc c.fst c.snd) st

/-- Once set, the shared access slot stays set across any sequence of
`setTokens` calls, regardless of the refresh slot's state: every call assigns
the access slot a string. -/
theorem applySetTokens_access_isSome (core : BeamableCore)
    (calls : List (String × Option String)) (st : TokenState)
    (ha : st.accessToken.isSome = true) :
    (applySetTokens core calls st).accessToken.isSome = true := by
  induction calls generalizing st with
  | nil => exact ha
  | cons c rest ih =>
    simp only [applySetTokens, List.foldl] at ih ⊢
    exact ih _ rfl

/-- Once set, the shared refresh slot stays set across any sequence of
`setTokens` calls, regardless of the access slot's state: the refresh slot is
only ever overwritten by a non-empty string. -/
theorem applySetTokens_refresh_isSome (core : BeamableCore)
    (calls : List (String × Option String)) (st : TokenState)
    (hr : st.refreshToken.isSome = true) :
    (applySetTokens core calls st).refreshToken.isSome = true := by
  induction calls generalizing st with
  | nil => exact hr
  | cons c rest ih =>
    simp only [applySetTokens, List.foldl] at ih ⊢
    apply ih
    simp only [BeamableCore.setTokens, setTokensRaw]
    by_cases h : truthyStr c.snd = true
    · rw [if_pos h]
      cases hc : c.snd with
      | none => rw [hc] at h; exact absurd h (by decide)
      | some r => simp
    · rw [if_neg h]; exact hr

/-- C10: `setTokens` treats an empty-string refresh argument exactly like an
omitted one (unconditionally — the truthiness guard skips the update), and no
sequence of `setTokens` calls can reset either shared token back to null once
that token has been set, each independently of the other slot's state: the
access slot is always assigned a string and the refresh slot is only ever
overwritten by a non-empty string. -/
theorem setTokens_truthiness_monotone (core : BeamableCore) (a : String)
    (st : TokenState) (calls : List (String × Option String)) :
    core.setTokens st a (some ("")) = core.setTokens st a none
    ∧ (st.accessToken.isSome = true →
        (applySetTokens core calls st).accessToken.isSome = true)
    ∧ (st.refreshToken.isSome = true →
        (applySetTokens core calls st).refreshToken.isSome = true) :=
  ⟨rfl, applySetTokens_access_isSome core calls st,
    applySetTokens_refresh_isSome core calls st⟩

/-- A token slot in the state reached by a first `setTokens` call that carried
no refresh token: access set, refresh still null. -/
def accessOnly : TokenState := { accessToken := some ("tokA") }

/-- C10 witness: the theorem applied at the access-set/refresh-null state (the
empty-string-equals-omitted equation and access persistence there) and at a
fully populated state (refresh persistence), over a call sequence containing an
omitted and an empty-string refresh argument. -/
theorem setTokens_truthiness_monotone_witness :
    BeamableCore.setTokens ⟨cfgClient⟩ accessOnly ("x") (some (""))
      = BeamableCore.setTokens ⟨cfgClient⟩ accessOnly ("x") none
    ∧ (applySetTokens ⟨cfgClient⟩ [("y", none), ("z", some (""))] accessOnly).accessToken.isSome = true
    ∧ (applySetTokens ⟨cfgClient⟩ [("y", none), ("z", some (""))] tokensBoth).refreshToken.isSome = true :=
  ⟨(setTokens_truthiness_monotone ⟨cfgClient⟩ ("x") accessOnly [("y", none), ("z", some (""))]).1,
    (setTokens_truthiness_monotone ⟨cfgClient⟩ ("x") accessOnly [("y", none), ("z", some (""))]).2.1
      (by decide),
    (setTokens_truthiness_monotone ⟨cfgClient⟩ ("x") tokensBoth [("y", none), ("z", some (""))]).2.2
      (by decide)⟩

end BeamableSdk
